import Mathlib

/-!
# rct `SocketClient` (src/rct/SocketClient.h)

A shallow embedding of the `SocketClient` class: its data members, the member
functions whose bodies the header defines, and, for the members the header only
declares, definitions that follow the specification.

Conventions.
* A `char` / `unsigned char` is a `Byte` (a number below 256); `String` (a
  `std::string` wrapper) and `Buffer` are byte sequences, called `Str` and
  `Buffer` here.
* `int fd` is an `Int` and `unsigned int socketMode` a `Nat` (no arithmetic is
  performed on them, so no wrap-around can occur); a `uint16_t` is a `Port`.
* The `Signal` members hold observers only; emitting a signal is recorded as an
  `Effect` in the list an operation returns.
-/

namespace Rct

/-- One `char` of a `String`, one `unsigned char` of a `Buffer`. -/
abbrev Byte := Fin 256

/-- Contents of a `String` (size known, zero bytes allowed inside). -/
abbrev Str := List Byte

/-- Contents of a `Buffer`. -/
abbrev Buffer := List Byte

/-- A `uint16_t` port number. -/
abbrev Port := Fin 65536

/-- The enum `SocketClient::State`. -/
inductive State where
  | Disconnected
  | Connecting
  | Connected
  deriving DecidableEq, Repr

/-- The enum `SocketClient::WriteMode`. -/
inductive WriteMode where
  | Synchronous
  | Asynchronous
  deriving DecidableEq, Repr

/-- The enum `SocketClient::Error`. -/
inductive Error where
  | InitializeError
  | DnsError
  | ConnectError
  | BindError
  | ReadError
  | WriteError
  | EventLoopError
  deriving DecidableEq, Repr

/-- Enumerator `None = 0x0` of `SocketClient::Mode`. -/
def None : Nat := 0x0
/-- Enumerator `Tcp = 0x1` of `SocketClient::Mode`. -/
def Tcp : Nat := 0x1
/-- Enumerator `Udp = 0x2` of `SocketClient::Mode`. -/
def Udp : Nat := 0x2
/-- Enumerator `Unix = 0x4` of `SocketClient::Mode`. -/
def Unix : Nat := 0x4
/-- Enumerator `IPv6 = 0x8` of `SocketClient::Mode`. -/
def IPv6 : Nat := 0x8

/-- Truth value of the C++ condition `m & bit` (non-zero is true). -/
def hasBit (m bit : Nat) : Bool := (m &&& bit) != 0

/-- The private data members of `SocketClient` (lines 108-114 and 121). -/
structure SocketClient where
  fd : Int
  socketPort : Port
  socketState : State
  socketMode : Nat
  wMode : WriteMode
  writeWait : Bool
  address : Str
  readBuffer : Buffer
  writeBuffer : Buffer
  deriving DecidableEq, Repr

namespace SocketClient

/-- Member `State state() const { return socketState; }`. -/
def state (c : SocketClient) : State := c.socketState

/-- Member `unsigned int mode() const { return socketMode; }`. -/
def mode (c : SocketClient) : Nat := c.socketMode

/-- Member `String hostName() const { return (socketMode & Tcp ? address : String()); }`. -/
def hostName (c : SocketClient) : Str :=
  if hasBit c.socketMode Tcp then c.address else []

/-- Member `String path() const { return (socketMode & Unix ? address : String()); }`. -/
def path (c : SocketClient) : Str :=
  if hasBit c.socketMode Unix then c.address else []

/-- Member `uint16_t port() const { return socketPort; }`. -/
def port (c : SocketClient) : Port := c.socketPort

/-- Member `bool isConnected() const { return fd != -1; }`. -/
def isConnected (c : SocketClient) : Bool := c.fd != -1

/-- Member `int socket() const { return fd; }`. -/
def socket (c : SocketClient) : Int := c.fd

/-- Member `void setWriteMode(WriteMode m) { wMode = m; }`. -/
def setWriteMode (c : SocketClient) (m : WriteMode) : SocketClient :=
  { c with wMode := m }

/-- Member `WriteMode writeMode() const { return wMode; }`. -/
def writeMode (c : SocketClient) : WriteMode := c.wMode

/-- Member `const Buffer& buffer() const { return readBuffer; }`. -/
def buffer (c : SocketClient) : Buffer := c.readBuffer

end SocketClient

/-- Modelled from the spec: the move constructor of `Buffer` (Buffer.h is not
part of the sources). "Move-out leaves the source logically empty": the
destination receives the contents, the source is left empty. The result is
(destination, source afterwards). -/
def Buffer.moveOut (src : Buffer) : Buffer × Buffer := (src, [])

namespace SocketClient

/-- Member `Buffer&& takeBuffer() { return std::move(readBuffer); }`. The call
returns an rvalue reference to the member `readBuffer` and assigns nothing: the
result is the contents the reference designates and the client afterwards,
which is the client as it was. -/
def takeBuffer (c : SocketClient) : Buffer × SocketClient :=
  (c.readBuffer, c)

/-- A caller claiming the read buffer, `Buffer b(client.takeBuffer());`: the
reference returned by `takeBuffer()` is the source of the `Buffer` move, which
hands the contents to `b` and leaves the member `readBuffer` as the move leaves
its source. The result is the caller's buffer and the client afterwards. -/
def claimBuffer (c : SocketClient) : Buffer × SocketClient :=
  let r := takeBuffer c
  let moved := Buffer.moveOut r.1
  (moved.1, { r.2 with readBuffer := moved.2 })

end SocketClient

/-! ### Strings seen through pointers -/

/-- `String::constData()` and `&data[0]`: the storage a pointer to the first
character of a string gives access to, i.e. the bytes of the string followed by
the terminating zero byte. -/
def Str.storage (s : Str) : List Byte := s ++ [0]

/-- What is read through a pointer together with a length `num`: the first
`num` bytes of the storage. -/
def readBytes (mem : List Byte) (num : Nat) : List Byte := mem.take num

/-- What is read through a `const char*` taken as a C string (the `%s`
conversion): the bytes before the first zero byte. -/
def cString (mem : List Byte) : List Byte := mem.takeWhile (fun b => b != 0)

/-- The `%u` conversion: the decimal digits of `n` as ASCII bytes. -/
def decimal (n : Nat) : List Byte :=
  (Nat.toDigits 10 n).map (fun ch => Fin.ofNat ch.toNat)

/-- The call `String::format<64>("%s:%u", ipData, port)` of `peerName()`.
`String::format` is declared in String.h, which is not among the sources; it is
taken as printf-style formatting through a buffer of 64 bytes: the text is the
C string at `ipData`, a colon and the decimal port, and when the text and its
terminator fit in the buffer the result is that text. What is returned for a
longer text is the parameter `overflow`. -/
def format64 (overflow : List Byte → Str) (ipData : List Byte) (port : Port) : Str :=
  let text := cString ipData ++ [58] ++ decimal port.val
  if text.length < 64 then text else overflow text

/-- What the declared-only member `bool peer(String* ip, uint16_t* port) const`
yields: its return value and the values it stored through its out-parameters. -/
structure PeerLookup where
  ok : Bool
  ip : Str
  port : Port
  deriving DecidableEq, Repr

/-- Effects an operation has outside the object: calls to the event loop, the
closing of a descriptor, and the signals emitted. -/
inductive Effect where
  | registerForReadability (fd : Int)
  | registerForWritability (fd : Int)
  | deregister (fd : Int)
  | closeDescriptor (fd : Int)
  | connected
  | disconnected
  | error (e : Error)
  | readyRead (bytes : Buffer)
  | bytesWritten (count : Nat)
  deriving DecidableEq, Repr

/-- Outcome of the write syscall an operation attempts: the number of bytes the
descriptor accepted (fewer than requested is a partial write, none means it
would block), or an error. -/
inductive WriteResult where
  | wrote (n : Nat)
  | failed
  deriving DecidableEq, Repr

namespace SocketClient

/-- Member `String peer() const`: `String ip; if (peer(&ip)) return ip; return String();`.
The parameter `lookup` is the declared-only `peer(String*, uint16_t*)`, a query
on the object; whether the caller also asks for the port is taken not to change
its return value or the address it stores. -/
def peer (lookup : SocketClient → PeerLookup) (c : SocketClient) : Str :=
  let r := lookup c
  if r.ok then r.ip else []

/-- Member `String peerName() const`:
`if (peer(&ip, &port)) return String::format<64>("%s:%u", ip.constData(), port); return String();`. -/
def peerName (overflow : List Byte → Str) (lookup : SocketClient → PeerLookup)
    (c : SocketClient) : Str :=
  let r := lookup c
  if r.ok then format64 overflow (Str.storage r.ip) r.port else []

/-- Member `bool write(const String& data)`:
`return write(reinterpret_cast<const unsigned char*>(&data[0]), data.size());`.
The parameter `rawWrite` is the overload taking a pointer and a length. -/
def writeString {α : Type} (rawWrite : SocketClient → List Byte → Nat → α)
    (c : SocketClient) (data : Str) : α :=
  rawWrite c (Str.storage data) data.length

/-- Member `bool writeTo(const String& host, uint16_t port, const String& data)`:
`return writeTo(host, port, reinterpret_cast<const unsigned char*>(&data[0]), data.size());`.
The parameter `rawWriteTo` is the overload taking a pointer and a length. -/
def writeToString {α : Type} (rawWriteTo : SocketClient → Str → Port → List Byte → Nat → α)
    (c : SocketClient) (host : Str) (port : Port) (data : Str) : α :=
  rawWriteTo c host port (Str.storage data) data.length

/-- What the specification asks of the `String` overload of `write`: the string
is transported as an opaque byte sequence, so the bytes of `data`, all
`data.size()` of them, are what the transport consumes. The parameter
`transport` is what `write` does with the bytes it is given. -/
def writeBytesSpec {α : Type} (transport : SocketClient → List Byte → α)
    (c : SocketClient) (data : Str) : α :=
  transport c data

/-- What the specification asks of the `String` overload of `writeTo`: the
bytes of `data` are sent as one opaque datagram payload. -/
def writeToBytesSpec {α : Type} (transport : SocketClient → Str → Port → List Byte → α)
    (c : SocketClient) (host : Str) (port : Port) (data : Str) : α :=
  transport c host port data

/-- Modelled from the spec: the constructor `SocketClient()`, declared in the
header only. "Constructed empty (pre-connect)": no descriptor, the initial
state Disconnected, mode `None`, no endpoint, nothing buffered. The spec does
not name the initial write mode; it is the parameter `w`. -/
def create (w : WriteMode) : SocketClient :=
  { fd := -1, socketPort := 0, socketState := State.Disconnected, socketMode := None,
    wMode := w, writeWait := false, address := [], readBuffer := [], writeBuffer := [] }

/-- Modelled from the spec: the constructor `SocketClient(int fd, unsigned int mode)`,
declared in the header only. "Wrapping an already-accepted descriptor
(post-accept)": the descriptor and the mode are stored as given and the state
is Connected. -/
def wrap (w : WriteMode) (fd : Int) (mode : Nat) : SocketClient :=
  { fd := fd, socketPort := 0, socketState := State.Connected, socketMode := mode,
    wMode := w, writeWait := false, address := [], readBuffer := [], writeBuffer := [] }

/-- Modelled from the spec: what every transition away from Connecting or
Connected does to the object (sections 3 and 4.5): the descriptor is
deregistered, then closed, its stored value becomes -1, the state becomes
Disconnected and `writePending` is cleared. Nothing is closed when no
descriptor is owned. -/
def teardown (c : SocketClient) : SocketClient × List Effect :=
  ({ c with fd := -1, socketState := State.Disconnected, writeWait := false },
   if c.fd = -1 then [] else [Effect.deregister c.fd, Effect.closeDescriptor c.fd])

/-- Modelled from the spec: the member `void close()`, declared in the header
only (section 4.6). It deregisters and closes the descriptor if one is owned,
sets the state to Disconnected, clears `writePending`, keeps the read buffer
and discards the pending write buffer. The "disconnected" event of section 8
accompanies the transition to Disconnected, so it is emitted only when the
state was not Disconnected already. -/
def close (c : SocketClient) : SocketClient × List Effect :=
  let t := teardown c
  ({ t.1 with writeBuffer := [] },
   t.2 ++ (if c.socketState = State.Disconnected then [] else [Effect.disconnected]))

/-- Modelled from the spec: the member
`bool write(const unsigned char* data, unsigned int num)`, declared in the
header only (sections 4.2, 7 and 8). While Disconnected the call fails and
buffers nothing. Otherwise the `num` bytes at `data` are appended to the write
buffer when that buffer is non-empty or the write mode is Asynchronous;
else a write syscall is attempted at once, with outcome `sys`: the unwritten
remainder of a partial write is buffered, and an error closes the connection
and then emits `WriteError`. -/
def write (c : SocketClient) (data : List Byte) (num : Nat) (sys : WriteResult) :
    Bool × SocketClient × List Effect :=
  let bytes := readBytes data num
  if c.socketState = State.Disconnected then (false, c, [])
  else if c.writeBuffer ≠ [] ∨ c.wMode = WriteMode.Asynchronous then
    (true, { c with writeBuffer := c.writeBuffer ++ bytes, writeWait := true },
     [Effect.registerForWritability c.fd])
  else
    match sys with
    | WriteResult.wrote n =>
      if bytes.length ≤ n then (true, c, [])
      else (true, { c with writeBuffer := c.writeBuffer ++ bytes.drop n, writeWait := true },
            [Effect.registerForWritability c.fd])
    | WriteResult.failed =>
      let t := teardown c
      (false, t.1, t.2 ++ [Effect.error Error.WriteError])

/-- A sequence of `write` calls, each with the outcome of the syscall it may
attempt: the return values in order, the object afterwards and everything
emitted. -/
def writeAll (c : SocketClient) :
    List (List Byte × Nat × WriteResult) → List Bool × SocketClient × List Effect
  | [] => ([], c, [])
  | (data, num, sys) :: rest =>
    let r := write c data num sys
    let rs := writeAll r.2.1 rest
    (r.1 :: rs.1, rs.2.1, r.2.2 ++ rs.2.2)

end SocketClient

/-! ### The connection state machine -/

/-- Modelled from the spec: the transitions of the state machine of section 4.5
and the operations that act within a state. The implementations (connect, bind,
the readiness callback) are declared in the header only. A transition carries
what the environment decides: the number of the descriptor the OS created (a
non-negative number), the endpoint and mode the operation records, the bytes
received, and the outcome of a write syscall. -/
inductive Transition where
  /-- Disconnected to Connecting: connect initiated, would block. -/
  | connectWouldBlock (fd : Nat) (mode : Nat) (address : Str) (port : Port)
  /-- Disconnected to Connected: connect or bind completes synchronously. -/
  | connectCompleted (fd : Nat) (mode : Nat) (address : Str) (port : Port)
  /-- Connecting to Connected: the asynchronous connect completes. -/
  | asyncConnectCompleted
  /-- Connecting to Disconnected: the connect fails or times out. -/
  | asyncConnectFailed
  /-- The caller invokes `close()`. -/
  | closeCalled
  /-- Connected to Disconnected: the peer closes. -/
  | peerClosed
  /-- Connected to Disconnected: an I/O error. -/
  | ioError
  /-- Connected: bytes arrive and are appended to the read buffer. -/
  | received (bytes : Buffer)
  /-- Connected and waiting for writability: the write buffer is drained. -/
  | drained (sys : WriteResult)
  /-- The caller invokes `write(data, num)`. -/
  | writeCalled (data : List Byte) (num : Nat) (sys : WriteResult)
  /-- The caller invokes `setWriteMode(m)`. -/
  | setWriteModeCalled (m : WriteMode)
  /-- The caller claims the read buffer, `Buffer b(client.takeBuffer());`. -/
  | takeBufferCalled
  deriving DecidableEq, Repr

namespace SocketClient

/-- Modelled from the spec: the object after a transition (sections 3, 4.1, 4.2
and 4.5). A transition that is not enabled in the current state leaves the
object as it is ("calling again while Connecting or Connected is a no-op"). A
descriptor is created by a successful connect or bind; every transition away
from Connecting or Connected goes through `teardown`. -/
def fire (t : Transition) (c : SocketClient) : SocketClient :=
  match t with
  | Transition.connectWouldBlock fd mode address port =>
    if c.socketState = State.Disconnected then
      { c with fd := (fd : Int), socketState := State.Connecting, socketMode := mode,
               address := address, socketPort := port }
    else c
  | Transition.connectCompleted fd mode address port =>
    if c.socketState = State.Disconnected then
      { c with fd := (fd : Int), socketState := State.Connected, socketMode := mode,
               address := address, socketPort := port }
    else c
  | Transition.asyncConnectCompleted =>
    if c.socketState = State.Connecting then { c with socketState := State.Connected } else c
  | Transition.asyncConnectFailed =>
    if c.socketState = State.Connecting then (teardown c).1 else c
  | Transition.closeCalled => (close c).1
  | Transition.peerClosed =>
    if c.socketState = State.Connected then (teardown c).1 else c
  | Transition.ioError =>
    if c.socketState = State.Connected then (teardown c).1 else c
  | Transition.received bytes =>
    if c.socketState = State.Connected then { c with readBuffer := c.readBuffer ++ bytes } else c
  | Transition.drained sys =>
    if c.socketState = State.Connected ∧ c.writeWait = true then
      match sys with
      | WriteResult.wrote n =>
        { c with writeBuffer := c.writeBuffer.drop n,
                 writeWait := !(c.writeBuffer.drop n).isEmpty }
      | WriteResult.failed => (teardown c).1
    else c
  | Transition.writeCalled data num sys => (write c data num sys).2.1
  | Transition.setWriteModeCalled m => setWriteMode c m
  | Transition.takeBufferCalled => (claimBuffer c).2

/-- The objects a constructor builds: `SocketClient()`, or
`SocketClient(fd, mode)` for any `int fd` and any `unsigned int mode`. -/
inductive Constructed : SocketClient → Prop where
  | create (w : WriteMode) : Constructed (create w)
  | wrap (w : WriteMode) (fd : Int) (mode : Nat) : Constructed (wrap w fd mode)

/-- The objects that arise from the object `c0` by a sequence of transitions. -/
inductive ReachableFrom (c0 : SocketClient) : SocketClient → Prop where
  | start : ReachableFrom c0 c0
  | fire (t : Transition) (c : SocketClient) (h : ReachableFrom c0 c) :
      ReachableFrom c0 (fire t c)

/-- The objects that can arise: one built by a constructor, then any sequence
of transitions. -/
def Reachable (c : SocketClient) : Prop :=
  ∃ c0 : SocketClient, Constructed c0 ∧ ReachableFrom c0 c

end SocketClient

/-! ### Properties of a mode value -/

/-- How many of the transport bits Tcp, Udp, Unix are set in `m`. -/
def transportBits (m : Nat) : Nat :=
  (if hasBit m Tcp then 1 else 0) + (if hasBit m Udp then 1 else 0) +
    (if hasBit m Unix then 1 else 0)

/-- The constraint the data model puts on a mode: exactly one transport bit,
and the IPv6 bit only together with Tcp or Udp. -/
def legalMode (m : Nat) : Prop :=
  transportBits m = 1 ∧ (hasBit m IPv6 = true → hasBit m Tcp = true ∨ hasBit m Udp = true)

instance (m : Nat) : Decidable (legalMode m) :=
  inferInstanceAs (Decidable (transportBits m = 1 ∧
    (hasBit m IPv6 = true → hasBit m Tcp = true ∨ hasBit m Udp = true)))

/-- A concrete object for evaluating the members: the given descriptor, state,
mode, address and read buffer, port 0, synchronous writes, nothing pending. -/
def sampleClient (fd : Int) (st : State) (mode : Nat) (address : Str) (rd : Buffer) :
    SocketClient :=
  { fd := fd, socketPort := 0, socketState := st, socketMode := mode,
    wMode := WriteMode.Synchronous, writeWait := false, address := address,
    readBuffer := rd, writeBuffer := [] }

/-! ## Theorems -/

open SocketClient

/-! ### Helper lemmas -/

theorem transportBits_eq_one_iff (m : Nat) :
    transportBits m = 1 ↔
      (hasBit m Tcp = true ∧ hasBit m Udp = false ∧ hasBit m Unix = false) ∨
      (hasBit m Tcp = false ∧ hasBit m Udp = true ∧ hasBit m Unix = false) ∨
      (hasBit m Tcp = false ∧ hasBit m Udp = false ∧ hasBit m Unix = true) := by
  unfold transportBits
  cases hasBit m Tcp <;> cases hasBit m Udp <;> cases hasBit m Unix <;> simp

theorem fire_preserves_descriptor_iff (t : Transition) (c : SocketClient)
    (h : c.fd ≠ -1 ↔ c.socketState ≠ State.Disconnected) :
    (fire t c).fd ≠ -1 ↔ (fire t c).socketState ≠ State.Disconnected := by
  cases t with
  | connectWouldBlock fd mode address port =>
    simp only [fire]; split_ifs with h1
    · simp
    · exact h
  | connectCompleted fd mode address port =>
    simp only [fire]; split_ifs with h1
    · simp
    · exact h
  | asyncConnectCompleted =>
    simp only [fire]; split_ifs with h1
    · simp [h, h1]
    · exact h
  | asyncConnectFailed =>
    simp only [fire]; split_ifs with h1
    · simp [teardown]
    · exact h
  | closeCalled => simp [fire, close, teardown]
  | peerClosed =>
    simp only [fire]; split_ifs with h1
    · simp [teardown]
    · exact h
  | ioError =>
    simp only [fire]; split_ifs with h1
    · simp [teardown]
    · exact h
  | received bytes =>
    simp only [fire]; split_ifs with h1
    · exact h
    · exact h
  | drained sys =>
    cases sys with
    | wrote n =>
      simp only [fire]; split_ifs with h1
      · exact h
      · exact h
    | failed =>
      simp only [fire]; split_ifs with h1
      · simp [teardown]
      · exact h
  | writeCalled data num sys =>
    cases sys with
    | wrote n =>
      simp only [fire, write]
      split_ifs <;> exact h
    | failed =>
      simp only [fire, write]
      split_ifs
      · exact h
      · exact h
      · simp [teardown]
  | setWriteModeCalled m => exact h
  | takeBufferCalled => exact h

theorem fire_preserves_descriptor_imp (t : Transition) (c : SocketClient)
    (h : c.fd ≠ -1 → c.socketState ≠ State.Disconnected) :
    (fire t c).fd ≠ -1 → (fire t c).socketState ≠ State.Disconnected := by
  cases t with
  | connectWouldBlock fd mode address port =>
    simp only [fire]; split_ifs with h1
    · simp
    · exact h
  | connectCompleted fd mode address port =>
    simp only [fire]; split_ifs with h1
    · simp
    · exact h
  | asyncConnectCompleted =>
    simp only [fire]; split_ifs with h1
    · simp
    · exact h
  | asyncConnectFailed =>
    simp only [fire]; split_ifs with h1
    · simp [teardown]
    · exact h
  | closeCalled => simp [fire, close, teardown]
  | peerClosed =>
    simp only [fire]; split_ifs with h1
    · simp [teardown]
    · exact h
  | ioError =>
    simp only [fire]; split_ifs with h1
    · simp [teardown]
    · exact h
  | received bytes =>
    simp only [fire]; split_ifs with h1
    · exact h
    · exact h
  | drained sys =>
    cases sys with
    | wrote n =>
      simp only [fire]; split_ifs with h1
      · exact h
      · exact h
    | failed =>
      simp only [fire]; split_ifs with h1
      · simp [teardown]
      · exact h
  | writeCalled data num sys =>
    cases sys with
    | wrote n =>
      simp only [fire, write]
      split_ifs <;> exact h
    | failed =>
      simp only [fire, write]
      split_ifs
      · exact h
      · exact h
      · simp [teardown]
  | setWriteModeCalled m => exact h
  | takeBufferCalled => exact h

theorem descriptor_iff_of_reachableFrom (c0 c : SocketClient) (h : ReachableFrom c0 c)
    (h0 : c0.fd ≠ -1 ↔ c0.socketState ≠ State.Disconnected) :
    c.fd ≠ -1 ↔ c.socketState ≠ State.Disconnected := by
  induction h with
  | start => exact h0
  | fire t c _ ih => exact fire_preserves_descriptor_iff t c ih

theorem descriptor_imp_of_reachableFrom (c0 c : SocketClient) (h : ReachableFrom c0 c)
    (h0 : c0.fd ≠ -1 → c0.socketState ≠ State.Disconnected) :
    c.fd ≠ -1 → c.socketState ≠ State.Disconnected := by
  induction h with
  | start => exact h0
  | fire t c _ ih => exact fire_preserves_descriptor_imp t c ih

theorem constructed_descriptor_imp (c0 : SocketClient) (built : Constructed c0) :
    c0.fd ≠ -1 → c0.socketState ≠ State.Disconnected := by
  cases built with
  | create w => simp [create]
  | wrap w fd mode => simp [wrap]

theorem constructed_descriptor_iff (c0 : SocketClient) (built : Constructed c0)
    (live : ∀ (w : WriteMode) (mode : Nat), c0 ≠ wrap w (-1) mode) :
    c0.fd ≠ -1 ↔ c0.socketState ≠ State.Disconnected := by
  cases built with
  | create w => simp [create]
  | wrap w fd mode =>
    have hfd : fd ≠ -1 := fun e => live w mode (by rw [e])
    simp [wrap, hfd]

theorem cString_storage (s : Str) :
    cString (Str.storage s) = s.takeWhile (fun b => b != 0) := by
  induction s with
  | nil => simp [cString, Str.storage]
  | cons b rest ih =>
    unfold cString Str.storage at ih ⊢
    by_cases hb : b = 0
    · simp [hb]
    · simp [List.takeWhile_cons, hb, ih]

theorem takeWhile_nonzero_of_no_zero (s : Str) (h : (0 : Byte) ∉ s) :
    s.takeWhile (fun b => b != 0) = s := by
  apply List.takeWhile_eq_self_iff.2
  intro b hb
  have : b ≠ 0 := fun e => h (e ▸ hb)
  simpa using this

theorem readBytes_storage (s : Str) : readBytes (Str.storage s) s.length = s := by
  simp [readBytes, Str.storage]

theorem takeWhile_nonzero_length_lt (s : Str) (h : (0 : Byte) ∈ s) :
    (s.takeWhile (fun b => b != 0)).length < s.length := by
  induction s with
  | nil => simp at h
  | cons b rest ih =>
    by_cases hb : b = 0
    · simp [hb]
    · have hr : (0 : Byte) ∈ rest := by
        rcases List.mem_cons.1 h with e | e
        · exact absurd e.symm hb
        · exact e
      simp [List.takeWhile_cons, hb]
      exact ih hr

/-! ### C7: the descriptor value -1 means absent -/

/-- C7. For every SocketClient value, `isConnected()` returns false if and only
if `socket()` returns -1; every other descriptor value, zero and the negative
values other than -1 included, is reported as connected. -/
theorem isConnected_false_iff_socket_absent (c : SocketClient) :
    (isConnected c = false ↔ socket c = -1) ∧
    (socket c ≠ -1 → isConnected c = true) ∧
    (socket c = 0 → isConnected c = true) ∧
    (socket c < -1 → isConnected c = true) := by
  unfold isConnected socket
  refine ⟨by simp, by simp, ?_, ?_⟩
  · intro h; simp [h]
  · intro h
    have : c.fd ≠ -1 := by omega
    simp [this]

/-- C7 at the descriptors 0 and -2: both are reported as connected. -/
theorem isConnected_false_iff_socket_absent_witness :
    isConnected (sampleClient 0 State.Connected Tcp [] []) = true ∧
    isConnected (sampleClient (-2) State.Connected Tcp [] []) = true ∧
    isConnected (sampleClient (-1) State.Connected Tcp [] []) = false :=
  ⟨(isConnected_false_iff_socket_absent (sampleClient 0 State.Connected Tcp [] [])).2.2.1 rfl,
   (isConnected_false_iff_socket_absent (sampleClient (-2) State.Connected Tcp [] [])).2.2.2
     (by decide),
   (isConnected_false_iff_socket_absent (sampleClient (-1) State.Connected Tcp [] [])).1.2 rfl⟩

/-! ### C8: setWriteMode -/

/-- C8. After `setWriteMode(m)`, `writeMode()` returns `m`; `state()`, `mode()`,
`port()`, `socket()`, `hostName()`, `path()` and `buffer()` are unchanged, as
is every data member other than `wMode`; setting the same mode twice equals
setting it once. -/
theorem setWriteMode_frame (c : SocketClient) (m : WriteMode) :
    writeMode (setWriteMode c m) = m ∧
    state (setWriteMode c m) = state c ∧
    mode (setWriteMode c m) = mode c ∧
    port (setWriteMode c m) = port c ∧
    socket (setWriteMode c m) = socket c ∧
    hostName (setWriteMode c m) = hostName c ∧
    path (setWriteMode c m) = path c ∧
    buffer (setWriteMode c m) = buffer c ∧
    isConnected (setWriteMode c m) = isConnected c ∧
    (setWriteMode c m).writeWait = c.writeWait ∧
    (setWriteMode c m).writeBuffer = c.writeBuffer ∧
    setWriteMode (setWriteMode c m) m = setWriteMode c m := by
  refine ⟨rfl, rfl, rfl, rfl, rfl, rfl, rfl, rfl, rfl, rfl, rfl, rfl⟩

/-- C8, evaluated on a client in mode Tcp with host "h" and a read buffer. -/
theorem setWriteMode_frame_witness :
    writeMode (setWriteMode (sampleClient 5 State.Connected Tcp [104] [1, 2])
      WriteMode.Asynchronous) = WriteMode.Asynchronous ∧
    hostName (setWriteMode (sampleClient 5 State.Connected Tcp [104] [1, 2])
      WriteMode.Asynchronous) = [104] ∧
    buffer (setWriteMode (sampleClient 5 State.Connected Tcp [104] [1, 2])
      WriteMode.Asynchronous) = [1, 2] :=
  have h := setWriteMode_frame (sampleClient 5 State.Connected Tcp [104] [1, 2])
    WriteMode.Asynchronous
  ⟨h.1, h.2.2.2.2.2.1, h.2.2.2.2.2.2.2.1⟩

/-! ### C6: takeBuffer -/

/-- C6, the claim as stated fails: `takeBuffer()` returns a reference to the
read buffer and assigns nothing, so on a client whose read buffer holds three
bytes the call designates those bytes and `buffer()` still returns them
afterwards; it is not empty. -/
theorem takeBuffer_alone_keeps_buffer :
    (takeBuffer (sampleClient 7 State.Connected Tcp [] [104, 0, 105])).1 = [104, 0, 105] ∧
    buffer (takeBuffer (sampleClient 7 State.Connected Tcp [] [104, 0, 105])).2 =
      [104, 0, 105] ∧
    buffer (takeBuffer (sampleClient 7 State.Connected Tcp [] [104, 0, 105])).2 ≠ [] := by
  decide

/-- C6, amended. When the read buffer holds the bytes `b`, `takeBuffer()`
returns a reference designating `b` and by itself changes no data member, so
`buffer()` still returns `b`. When the caller constructs its own `Buffer` from
that reference, the caller holds `b`, `buffer()` is empty immediately
afterwards, and every other data member is unchanged. -/
theorem takeBuffer_then_claim (c : SocketClient) (b : Buffer) (hb : buffer c = b) :
    (takeBuffer c).1 = b ∧
    (takeBuffer c).2 = c ∧
    buffer (takeBuffer c).2 = b ∧
    (claimBuffer c).1 = b ∧
    buffer (claimBuffer c).2 = [] ∧
    (claimBuffer c).2 = { c with readBuffer := [] } ∧
    (claimBuffer c).2.fd = c.fd ∧
    (claimBuffer c).2.socketPort = c.socketPort ∧
    (claimBuffer c).2.socketState = c.socketState ∧
    (claimBuffer c).2.socketMode = c.socketMode ∧
    (claimBuffer c).2.wMode = c.wMode ∧
    (claimBuffer c).2.writeWait = c.writeWait ∧
    (claimBuffer c).2.address = c.address ∧
    (claimBuffer c).2.writeBuffer = c.writeBuffer := by
  subst hb
  refine ⟨rfl, rfl, rfl, rfl, rfl, rfl, rfl, rfl, rfl, rfl, rfl, rfl, rfl, rfl⟩

/-- C6 amended, evaluated on a connected client whose read buffer holds three
bytes. -/
theorem takeBuffer_then_claim_witness :
    buffer (sampleClient 7 State.Connected Tcp [] [104, 0, 105]) = [104, 0, 105] ∧
    (claimBuffer (sampleClient 7 State.Connected Tcp [] [104, 0, 105])).1 = [104, 0, 105] ∧
    buffer (claimBuffer (sampleClient 7 State.Connected Tcp [] [104, 0, 105])).2 = [] :=
  have h := takeBuffer_then_claim (sampleClient 7 State.Connected Tcp [] [104, 0, 105])
    [104, 0, 105] rfl
  ⟨rfl, h.2.2.2.1, h.2.2.2.2.1⟩

/-! ### C5: hostName and path -/

/-- C5, the claim as stated fails for an empty address: in mode Tcp, exactly one
transport bit is set, and with the stored address empty both `hostName()` and
`path()` return the stored address. -/
theorem hostName_path_both_return_empty_address :
    transportBits (mode (sampleClient 5 State.Connected Tcp [] [])) = 1 ∧
    hostName (sampleClient 5 State.Connected Tcp [] []) =
      (sampleClient 5 State.Connected Tcp [] []).address ∧
    path (sampleClient 5 State.Connected Tcp [] []) =
      (sampleClient 5 State.Connected Tcp [] []).address ∧
    ¬ (transportBits (mode (sampleClient 5 State.Connected Tcp [] [])) = 1 →
        ¬ (hostName (sampleClient 5 State.Connected Tcp [] []) =
              (sampleClient 5 State.Connected Tcp [] []).address ∧
           path (sampleClient 5 State.Connected Tcp [] []) =
              (sampleClient 5 State.Connected Tcp [] []).address)) := by
  decide

/-- C5, amended. `hostName()` returns the stored address when the Tcp bit of the
mode is set and the empty string otherwise; `path()` returns it when the Unix
bit is set and the empty string otherwise. For a mode with only the Udp bit
(with or without IPv6) both are empty. For a mode with exactly one transport
bit at least one of the two is empty, so when the stored address is non-empty
at most one of them returns it. -/
theorem hostName_path_by_mode (c : SocketClient) :
    hostName c = (if hasBit (mode c) Tcp = true then c.address else []) ∧
    path c = (if hasBit (mode c) Unix = true then c.address else []) ∧
    (mode c = Udp ∨ mode c = Udp ||| IPv6 → hostName c = [] ∧ path c = []) ∧
    (transportBits (mode c) = 1 → hostName c = [] ∨ path c = []) ∧
    (transportBits (mode c) = 1 → c.address ≠ [] →
        ¬ (hostName c = c.address ∧ path c = c.address)) := by
  have key : transportBits (mode c) = 1 → hostName c = [] ∨ path c = [] := by
    intro h
    rcases (transportBits_eq_one_iff _).1 h with ⟨_, _, hx⟩ | ⟨ht, _, _⟩ | ⟨ht, _, _⟩
    · right; unfold path; unfold mode at hx; simp [hx]
    · left; unfold hostName; unfold mode at ht; simp [ht]
    · left; unfold hostName; unfold mode at ht; simp [ht]
  refine ⟨rfl, rfl, ?_, key, ?_⟩
  · intro h
    unfold mode at h
    unfold hostName path
    have t1 : hasBit Udp Tcp = false := by decide
    have t2 : hasBit Udp Unix = false := by decide
    have t3 : hasBit (Udp ||| IPv6) Tcp = false := by decide
    have t4 : hasBit (Udp ||| IPv6) Unix = false := by decide
    rcases h with h | h <;> rw [h] <;> simp [t1, t2, t3, t4]
  · intro h hne hboth
    rcases key h with h0 | h0
    · exact hne (hboth.1.symm.trans h0)
    · exact hne (hboth.2.symm.trans h0)

/-- C5 amended, evaluated in mode Tcp with address "ab" and in mode Udp|IPv6. -/
theorem hostName_path_by_mode_witness :
    hostName (sampleClient 5 State.Connected Tcp [97, 98] []) = [97, 98] ∧
    path (sampleClient 5 State.Connected Tcp [97, 98] []) = [] ∧
    (hostName (sampleClient 5 State.Connected (Udp ||| IPv6) [97, 98] []) = [] ∧
     path (sampleClient 5 State.Connected (Udp ||| IPv6) [97, 98] []) = []) ∧
    ¬ (hostName (sampleClient 5 State.Connected Tcp [97, 98] []) = [97, 98] ∧
       path (sampleClient 5 State.Connected Tcp [97, 98] []) = [97, 98]) :=
  ⟨(hostName_path_by_mode (sampleClient 5 State.Connected Tcp [97, 98] [])).1,
   (hostName_path_by_mode (sampleClient 5 State.Connected Tcp [97, 98] [])).2.1,
   (hostName_path_by_mode (sampleClient 5 State.Connected (Udp ||| IPv6) [97, 98] [])).2.2.1
     (Or.inr rfl),
   (hostName_path_by_mode (sampleClient 5 State.Connected Tcp [97, 98] [])).2.2.2.2
     (by decide) (by decide)⟩

/-! ### C4: the mode bit-set -/

/-- C4, the claim as stated fails: a client whose mode is `None` has no
transport bit set, and one whose mode is `Unix | IPv6` has the IPv6 bit set
together with Unix. Both are values of the `unsigned int` the object stores,
and `mode()` returns them as they are. -/
theorem mode_not_always_legal :
    mode (sampleClient (-1) State.Disconnected None [] []) = 0 ∧
    ¬ legalMode (mode (sampleClient (-1) State.Disconnected None [] [])) ∧
    mode (sampleClient 5 State.Connected (Unix ||| IPv6) [] []) = 12 ∧
    ¬ legalMode (mode (sampleClient 5 State.Connected (Unix ||| IPv6) [] [])) := by
  decide

/-- C4, amended. `mode()` returns the stored bit-set as it is. For a client
whose mode uses only the four defined bits, exactly one of Tcp, Udp, Unix is
set with IPv6 only beside Tcp or Udp if and only if the mode is one of Tcp,
Udp, Unix, Tcp|IPv6, Udp|IPv6. -/
theorem mode_legal_iff (c : SocketClient) (h : mode c < 16) :
    mode c = c.socketMode ∧
    (legalMode (mode c) ↔
      mode c ∈ [Tcp, Udp, Unix, Tcp ||| IPv6, Udp ||| IPv6]) := by
  refine ⟨rfl, ?_⟩
  generalize mode c = m at h
  interval_cases m <;> decide

/-- C4 amended, evaluated at mode Tcp|IPv6. -/
theorem mode_legal_iff_witness :
    mode (sampleClient 5 State.Connected (Tcp ||| IPv6) [] []) < 16 ∧
    legalMode (mode (sampleClient 5 State.Connected (Tcp ||| IPv6) [] [])) :=
  ⟨by decide,
   (mode_legal_iff (sampleClient 5 State.Connected (Tcp ||| IPv6) [] []) (by decide)).2.2
     (by decide)⟩

/-! ### C1: state and descriptor -/

/-- C1, the claim as stated fails: a connect that would block leaves the client
in state Connecting with its descriptor present, so `isConnected()` is true
while `state()` is not Connected. -/
theorem connecting_has_descriptor :
    fire (Transition.connectWouldBlock 3 Tcp [104] 80) (create WriteMode.Asynchronous) =
      { fd := 3, socketPort := 80, socketState := State.Connecting, socketMode := Tcp,
        wMode := WriteMode.Asynchronous, writeWait := false, address := [104],
        readBuffer := [], writeBuffer := [] } ∧
    Reachable (fire (Transition.connectWouldBlock 3 Tcp [104] 80)
      (create WriteMode.Asynchronous)) ∧
    state (fire (Transition.connectWouldBlock 3 Tcp [104] 80)
      (create WriteMode.Asynchronous)) = State.Connecting ∧
    isConnected (fire (Transition.connectWouldBlock 3 Tcp [104] 80)
      (create WriteMode.Asynchronous)) = true ∧
    ¬ (state (fire (Transition.connectWouldBlock 3 Tcp [104] 80)
          (create WriteMode.Asynchronous)) = State.Connected ↔
       isConnected (fire (Transition.connectWouldBlock 3 Tcp [104] 80)
          (create WriteMode.Asynchronous)) = true) :=
  ⟨by decide, ⟨_, Constructed.create _, ReachableFrom.fire _ _ ReachableFrom.start⟩,
   by decide, by decide, by decide⟩

/-- C1, amended. Let `c` arise by state-machine transitions from an object `c0`
built by a constructor. If `isConnected()` returns true (the descriptor is
present, fd != -1) then `state()` is Connecting or Connected. If moreover `c0`
was not built by `SocketClient(-1, mode)`, that is, it was built by
`SocketClient()` or by `SocketClient(fd, mode)` with fd != -1, then
`isConnected()` returns true if and only if `state()` is not Disconnected, that
is, if and only if the state is Connecting or Connected; in particular
`state()` being Connected then implies that the descriptor is present. The
object built by `SocketClient(-1, mode)` is in state Connected with
`isConnected()` false. -/
theorem isConnected_iff_not_disconnected (c0 c : SocketClient) (built : Constructed c0)
    (h : ReachableFrom c0 c) :
    (isConnected c = true → state c = State.Connecting ∨ state c = State.Connected) ∧
    ((∀ (w : WriteMode) (mode : Nat), c0 ≠ wrap w (-1) mode) →
      (isConnected c = true ↔ state c ≠ State.Disconnected) ∧
      (isConnected c = true ↔ state c = State.Connecting ∨ state c = State.Connected) ∧
      (state c = State.Connected → isConnected c = true)) ∧
    (∀ (w : WriteMode) (mode : Nat),
      Constructed (wrap w (-1) mode) ∧
      state (wrap w (-1) mode) = State.Connected ∧
      isConnected (wrap w (-1) mode) = false) := by
  have e1 : isConnected c = true ↔ c.fd ≠ -1 := by simp [isConnected]
  have e2 : state c = c.socketState := rfl
  have names : c.socketState ≠ State.Disconnected ↔
      c.socketState = State.Connecting ∨ c.socketState = State.Connected := by
    cases c.socketState <;> simp
  refine ⟨?_, ?_, ?_⟩
  · have imp := descriptor_imp_of_reachableFrom c0 c h (constructed_descriptor_imp c0 built)
    rw [e1, e2]
    exact fun hfd => names.1 (imp hfd)
  · intro live
    have inv := descriptor_iff_of_reachableFrom c0 c h (constructed_descriptor_iff c0 built live)
    rw [e1, e2, inv]
    refine ⟨Iff.rfl, names, ?_⟩
    intro hc; simp [hc]
  · intro w mode
    exact ⟨Constructed.wrap w (-1) mode, rfl, rfl⟩

/-- C1 amended, evaluated on a wrapped descriptor 7 after bytes arrived, and on
a fresh client after a connect that completed at once. -/
theorem isConnected_iff_not_disconnected_witness :
    Reachable (fire (Transition.received [1]) (wrap WriteMode.Asynchronous 7 Tcp)) ∧
    isConnected (fire (Transition.received [1]) (wrap WriteMode.Asynchronous 7 Tcp)) = true ∧
    (state (fire (Transition.connectCompleted 4 Unix [47, 120] 0)
        (create WriteMode.Synchronous)) = State.Connected ∧
     isConnected (fire (Transition.connectCompleted 4 Unix [47, 120] 0)
        (create WriteMode.Synchronous)) = true) :=
  ⟨⟨_, Constructed.wrap _ _ _, ReachableFrom.fire _ _ ReachableFrom.start⟩,
   ((isConnected_iff_not_disconnected (wrap WriteMode.Asynchronous 7 Tcp)
      (fire (Transition.received [1]) (wrap WriteMode.Asynchronous 7 Tcp))
      (Constructed.wrap _ _ _) (ReachableFrom.fire _ _ ReachableFrom.start)).2.1
      (by intro w mode e; have e2 := congrArg SocketClient.fd e; simp [wrap] at e2)).2.2
      (by decide),
   by decide,
   ((isConnected_iff_not_disconnected (create WriteMode.Synchronous)
      (fire (Transition.connectCompleted 4 Unix [47, 120] 0) (create WriteMode.Synchronous))
      (Constructed.create _) (ReachableFrom.fire _ _ ReachableFrom.start)).2.1
      (by intro w mode e; have e2 := congrArg SocketClient.socketState e;
          simp [create, wrap] at e2)).2.2
      (by decide)⟩

/-! ### C2: close is idempotent -/

/-- C2. For every SocketClient, calling `close()` twice leaves the same object
as calling it once, and the second call has no effect outside the object: it
emits no "disconnected" event and closes no descriptor. -/
theorem close_idempotent (c : SocketClient) :
    (close (close c).1).1 = (close c).1 ∧
    (close (close c).1).2 = [] ∧
    Effect.disconnected ∉ (close (close c).1).2 ∧
    (∀ fd : Int, Effect.closeDescriptor fd ∉ (close (close c).1).2) ∧
    state (close c).1 = State.Disconnected ∧
    socket (close c).1 = -1 ∧
    (close c).1.writeWait = false := by
  have h2 : (close (close c).1).2 = [] := by simp [close, teardown]
  refine ⟨by simp [close, teardown], h2, ?_, ?_, rfl, rfl, rfl⟩
  · rw [h2]; simp
  · intro fd; rw [h2]; simp

/-- C2, evaluated on a connected client with descriptor 5: the first call
deregisters and closes the descriptor and emits "disconnected", the second
call changes and emits nothing. -/
theorem close_idempotent_witness :
    (close (wrap WriteMode.Asynchronous 5 Tcp)).2 =
      [Effect.deregister 5, Effect.closeDescriptor 5, Effect.disconnected] ∧
    (close (close (wrap WriteMode.Asynchronous 5 Tcp)).1).1 =
      (close (wrap WriteMode.Asynchronous 5 Tcp)).1 ∧
    (close (close (wrap WriteMode.Asynchronous 5 Tcp)).1).2 = [] :=
  have h := close_idempotent (wrap WriteMode.Asynchronous 5 Tcp)
  ⟨by decide, h.1, h.2.1⟩

/-! ### C3: write while Disconnected -/

/-- C3. For every SocketClient whose state is Disconnected and every sequence
of `write(data, num)` calls, whatever the syscalls would report, each call
returns false, nothing is emitted, and the object, its write buffer in
particular, is left unchanged. -/
theorem write_fails_while_disconnected (c : SocketClient)
    (calls : List (List Byte × Nat × WriteResult)) (h : state c = State.Disconnected) :
    writeAll c calls = (List.replicate calls.length false, c, []) ∧
    (∀ r ∈ (writeAll c calls).1, r = false) ∧
    (writeAll c calls).1.length = calls.length ∧
    (writeAll c calls).2.1.writeBuffer = c.writeBuffer := by
  have key : writeAll c calls = (List.replicate calls.length false, c, []) := by
    induction calls with
    | nil => rfl
    | cons call rest ih =>
      obtain ⟨data, num, sys⟩ := call
      have hw : write c data num sys = (false, c, []) := by
        unfold write; unfold state at h; simp [h]
      simp [writeAll, hw, ih, List.replicate_succ]
  rw [key]
  refine ⟨rfl, ?_, by simp, rfl⟩
  intro r hr
  exact (List.mem_replicate.1 hr).2

/-- C3, evaluated on a freshly constructed client and two writes, one of them
with a syscall that would have succeeded. -/
theorem write_fails_while_disconnected_witness :
    state (create WriteMode.Synchronous) = State.Disconnected ∧
    writeAll (create WriteMode.Synchronous)
        [([97, 98], 2, WriteResult.wrote 2), ([99], 1, WriteResult.failed)] =
      ([false, false], create WriteMode.Synchronous, []) :=
  ⟨rfl,
   (write_fails_while_disconnected (create WriteMode.Synchronous)
      [([97, 98], 2, WriteResult.wrote 2), ([99], 1, WriteResult.failed)] rfl).1⟩

/-! ### C9: peer and peerName -/

/-- C9, the claim as stated fails for an address string with a zero byte inside:
when the lookup succeeds with the three bytes 97, 0, 98 and port 80,
`peer()` returns all three bytes but `peerName()` returns "a:80", because the
`%s` conversion reads the address as a C string. -/
theorem peerName_stops_at_zero_byte :
    peer (fun _ => { ok := true, ip := [97, 0, 98], port := 80 })
        (sampleClient 5 State.Connected Tcp [] []) = [97, 0, 98] ∧
    peerName (fun text => text) (fun _ => { ok := true, ip := [97, 0, 98], port := 80 })
        (sampleClient 5 State.Connected Tcp [] []) = [97, 58, 56, 48] ∧
    peerName (fun text => text) (fun _ => { ok := true, ip := [97, 0, 98], port := 80 })
        (sampleClient 5 State.Connected Tcp [] []) ≠ [97, 0, 98] ++ [58] ++ decimal 80 := by
  decide

/-- C9, amended. When the peer lookup fails, `peerName()` and `peer()` both
return the empty string. When it succeeds with address `ip` and port `p`,
`peer()` returns `ip`, and `peerName()` returns the bytes of `ip` before its
first zero byte, a colon and the decimal representation of `p`, provided this
text is shorter than the 64 bytes of the format buffer; for an `ip` without a
zero byte that is `ip`, a colon and the decimal representation of `p`. -/
theorem peer_peerName (overflow : List Byte → Str) (lookup : SocketClient → PeerLookup)
    (c : SocketClient) :
    ((lookup c).ok = false → peer lookup c = [] ∧ peerName overflow lookup c = []) ∧
    (∀ (ip : Str) (p : Port), lookup c = PeerLookup.mk true ip p →
      peer lookup c = ip ∧
      ((ip.takeWhile (fun b => b != 0) ++ [58] ++ decimal p.val).length < 64 →
        peerName overflow lookup c =
          ip.takeWhile (fun b => b != 0) ++ [58] ++ decimal p.val) ∧
      ((0 : Byte) ∉ ip → (ip ++ [58] ++ decimal p.val).length < 64 →
        peerName overflow lookup c = ip ++ [58] ++ decimal p.val)) := by
  have general : ∀ (ip : Str) (p : Port), lookup c = PeerLookup.mk true ip p →
      (ip.takeWhile (fun b => b != 0) ++ [58] ++ decimal p.val).length < 64 →
      peerName overflow lookup c =
        ip.takeWhile (fun b => b != 0) ++ [58] ++ decimal p.val := by
    intro ip p h hlen
    unfold peerName format64
    simp only [h, cString_storage, if_true]
    rw [if_pos hlen]
  refine ⟨?_, ?_⟩
  · intro h
    unfold peer peerName
    simp [h]
  · intro ip p h
    refine ⟨?_, general ip p h, ?_⟩
    · unfold peer
      simp [h]
    · intro hz hlen
      have e := takeWhile_nonzero_of_no_zero ip hz
      have g := general ip p h
      rw [e] at g
      exact g hlen

/-- C9 amended, evaluated for the address "10.0.0.7" with port 65535, and for a
failing lookup. -/
theorem peer_peerName_witness :
    peerName (fun _ => [])
        (fun _ => { ok := true, ip := [49, 48, 46, 48, 46, 48, 46, 55], port := 65535 })
        (sampleClient 5 State.Connected Tcp [] []) =
      [49, 48, 46, 48, 46, 48, 46, 55, 58, 54, 53, 53, 51, 53] ∧
    peerName (fun _ => []) (fun _ => { ok := false, ip := [49], port := 1 })
        (sampleClient 5 State.Connected Tcp [] []) = [] :=
  ⟨((peer_peerName (fun _ => [])
        (fun _ => { ok := true, ip := [49, 48, 46, 48, 46, 48, 46, 55], port := 65535 })
        (sampleClient 5 State.Connected Tcp [] [])).2
      [49, 48, 46, 48, 46, 48, 46, 55] 65535 rfl).2.2 (by decide) (by decide),
   ((peer_peerName (fun _ => []) (fun _ => { ok := false, ip := [49], port := 1 })
        (sampleClient 5 State.Connected Tcp [] [])).1 rfl).2⟩

/-! ### C10: the String overloads -/

/-- C10. The `String` overloads transport the string as an opaque byte
sequence: `write(data)` is `write` applied to the storage of `data` and the
length `data.size()`, and likewise `writeTo(host, port, data)`; the bytes read
through that pointer and length are exactly the bytes of `data`, zero bytes
included, so for any transport of the bytes the overloads do what the
specification asks; and the length passed exceeds the position of the first
zero byte when `data` contains one. -/
theorem string_overloads_transport_bytes {α β : Type}
    (rawWrite : SocketClient → List Byte → Nat → α)
    (rawWriteTo : SocketClient → Str → Port → List Byte → Nat → β)
    (transport : SocketClient → List Byte → α)
    (transportTo : SocketClient → Str → Port → List Byte → β)
    (c : SocketClient) (host : Str) (port : Port) (data : Str) :
    writeString rawWrite c data = rawWrite c (Str.storage data) data.length ∧
    writeToString rawWriteTo c host port data =
      rawWriteTo c host port (Str.storage data) data.length ∧
    readBytes (Str.storage data) data.length = data ∧
    writeString (fun c mem num => transport c (readBytes mem num)) c data =
      writeBytesSpec transport c data ∧
    writeToString (fun c h p mem num => transportTo c h p (readBytes mem num)) c host port data =
      writeToBytesSpec transportTo c host port data ∧
    ((0 : Byte) ∈ data → (cString (Str.storage data)).length < data.length) := by
  refine ⟨rfl, rfl, readBytes_storage data, ?_, ?_, ?_⟩
  · unfold writeString writeBytesSpec
    simp only [readBytes_storage]
  · unfold writeToString writeToBytesSpec
    simp only [readBytes_storage]
  · intro h
    rw [cString_storage]
    exact takeWhile_nonzero_length_lt data h

/-- C10, evaluated on the string of bytes 97, 0, 98 with a transport that reports the
bytes it was given: all three bytes are transported, while the C string at the
same pointer is one byte long. -/
theorem string_overloads_transport_bytes_witness :
    writeString (fun _ mem num => readBytes mem num)
        (sampleClient 5 State.Connected Tcp [] []) [97, 0, 98] = [97, 0, 98] ∧
    (cString (Str.storage [97, 0, 98])).length < 3 :=
  have h := string_overloads_transport_bytes
    (fun _ mem num => readBytes mem num) (fun _ _ _ mem num => readBytes mem num)
    (fun _ bytes => bytes) (fun _ _ _ bytes => bytes)
    (sampleClient 5 State.Connected Tcp [] []) [] 0 [97, 0, 98]
  ⟨h.2.2.2.1, h.2.2.2.2.2 (by decide)⟩

end Rct
